import Mathlib

/-!
Verification of the SPS30 particulate-matter sensor driver (protocol and
framing layer) against its natural-language specification.

The Python driver (`SPS30.py`) is shallowly embedded below: pure functions
become Lean functions over `Nat` byte values, mutable driver state becomes an
explicit `SensorState` record that is threaded through, bus I/O is modelled by
passing the response bytes of the device in as arguments and returning the list of
bus operations the driver performed, and Python floats are modelled by the
exact value type `PyFloat` (signed zero / exact rational / signed infinity /
NaN).  Python byte-string indexing `data[i]` is modelled by `byteAt`
(out-of-range indices default to `0`; all theorems below constrain lengths so
that this default is never exercised on the Python-reachable inputs), and the
slice `data[a:b]` is modelled by `(data.drop a).take (b - a)`, which agrees
with Python slicing on every input, short buffers included.
-/

namespace SPS30

/-! ## Checksum engine (`SPS30.crc_calc`, SPS30.py lines 282-293) -/

/-- One inner-loop iteration of `crc_calc`:
`crc = ((crc << 1) ^ 0x31) & 0xFF if crc & 0x80 else (crc << 1) & 0xFF`. -/
def crcRound (crc : Nat) : Nat :=
  if crc &&& 0x80 ≠ 0 then ((crc <<< 1) ^^^ 0x31) &&& 0xFF else (crc <<< 1) &&& 0xFF

/-- One outer-loop iteration of `crc_calc`: XOR the byte in, then run the
inner loop eight times. -/
def crcAbsorb (crc b : Nat) : Nat := crcRound^[8] (crc ^^^ b)

/-- `SPS30.crc_calc` (lines 282-293): Sensirion CRC-8, polynomial `0x31`,
initial value `0xFF`.  When the input is not exactly two bytes long the code
logs a debug warning and silently returns the sentinel `0xFF`. -/
def crc_calc (data : List Nat) : Nat :=
  if data.length ≠ 2 then 0xFF
  else data.foldl crcAbsorb 0xFF

/-- The checksum algorithm exactly as worded in the specification (§4.1):
initialize the accumulator to `0xFF`; for each of the two bytes, XOR it into
the accumulator, then for 8 iterations: if the high bit is set, shift left and
XOR with polynomial `0x31` (masked to 8 bits), else shift left (masked to
8 bits). -/
def checksum_spec (b0 b1 : Nat) : Nat :=
  let step := fun acc =>
    if acc &&& 0x80 ≠ 0 then ((acc <<< 1) ^^^ 0x31) &&& 0xFF else (acc <<< 1) &&& 0xFF
  let absorb := fun acc b => step^[8] (acc ^^^ b)
  absorb (absorb 0xFF b0) b1

/-! ## IEEE-754 single-precision decoding
(`SPS30.ieee754_number_conversion`, SPS30.py lines 337-353; the portable
bit-twiddling branch, lines 346-353, is the in-source definition of the
decoding; `_old_/IEEE754.py` lines 25-56 is the same algorithm and its test
harness checks it against `struct.unpack(">f", ...)`). -/

/-- Exact model of a Python float value as produced by the decoder:
signed zero, an exact (nonzero) rational, signed infinity, or NaN. -/
inductive PyFloat where
  | zero (neg : Bool)
  | finite (q : ℚ)
  | inf (neg : Bool)
  | nan
deriving DecidableEq, Repr

/-- IEEE-754 `==` semantics on decoded values (as the Python `==` on floats):
NaN is unequal to everything, itself included, and `0.0 == -0.0`. -/
def pyEq : PyFloat → PyFloat → Bool
  | PyFloat.nan, _ => false
  | _, PyFloat.nan => false
  | PyFloat.zero _, PyFloat.zero _ => true
  | PyFloat.zero _, PyFloat.finite q => q == 0
  | PyFloat.finite q, PyFloat.zero _ => q == 0
  | PyFloat.finite a, PyFloat.finite b => a == b
  | PyFloat.inf a, PyFloat.inf b => a == b
  | _, _ => false

/-- `SPS30.ieee754_number_conversion` (lines 337-353): decode a 32-bit word
as an IEEE-754 single-precision value.  Sign bit, 8-bit exponent biased by
127, 23-bit fraction; `e=0,f=0` gives a signed zero, `e=0xFF` gives NaN
(`f ≠ 0`) or a signed infinity (`f = 0`), `e=0` with `f ≠ 0` is subnormal
(no implicit leading 1), and the remaining cases are normal numbers. -/
def ieee754_number_conversion (u32 : Nat) : PyFloat :=
  let u : Nat := u32 % 2 ^ 32
  let s : Nat := u / 2 ^ 31            -- u >> 31
  let e : Nat := u / 2 ^ 23 % 2 ^ 8    -- (u >> 23) & 0xFF
  let f : Nat := u % 2 ^ 23            -- u & 0x7FFFFF
  if e = 0 ∧ f = 0 then PyFloat.zero (s == 1)
  else if e = 0xFF then (if f ≠ 0 then PyFloat.nan else PyFloat.inf (s == 1))
  else
    let exp : Int := if e = 0 then 1 - 127 else (e : Int) - 127
    let mant : ℚ := if e = 0 then (f : ℚ) / 2 ^ 23 else 1 + (f : ℚ) / 2 ^ 23
    PyFloat.finite ((-1) ^ s * mant * (2 : ℚ) ^ exp)

/-! ## Response packets and the measurement assembler
(`SPS30._mass_density_measurement` lines 685-730,
`SPS30._particle_count_measurement` lines 732-778,
`SPS30._particle_size_measurement` lines 780-811). -/

/-- Python `data[i]` on a response buffer (theorems constrain lengths so the
`0` default is never reached on Python-reachable inputs). -/
def byteAt (data : List Nat) (i : Nat) : Nat := data.getD i 0

/-- One 3-byte packet check: `crc_calc(data[off:off+2]) == data[off+2]`. -/
def packetOk (data : List Nat) (off : Nat) : Bool :=
  crc_calc ((data.drop off).take 2) == byteAt data (off + 2)

/-- Reassemble the 32-bit word of the 6-byte field at `off`:
the four data bytes are at `off`, `off+1`, `off+3`, `off+4` (the two CRC
bytes at `off+2`, `off+5` are skipped), combined big-endian:
`raw = b0 << 24 | b1 << 16 | b2 << 8 | b3`. -/
def floatAt (data : List Nat) (off : Nat) : PyFloat :=
  ieee754_number_conversion
    ((byteAt data off <<< 24) ||| (byteAt data (off + 1) <<< 16) |||
     (byteAt data (off + 3) <<< 8) ||| byteAt data (off + 4))

/-- The per-section decode loop: for each 6-byte block in `blocks` validate
both of its packets and decode its float.  Mirrors the Python control flow:
the first packet-CRC mismatch makes the whole section return `{}` (here
`none`) — no later packet or field of the section is examined. -/
def decodeFieldsFrom (data : List Nat) : List Nat → Option (List PyFloat)
  | [] => some []
  | b :: rest =>
    if packetOk data (b * 6) && packetOk data (b * 6 + 3) then
      match decodeFieldsFrom data rest with
      | some vs => some (floatAt data (b * 6) :: vs)
      | none => none
    else none

/-- `SPS30._mass_density_measurement` (lines 685-730) on its 24-byte slice.
Returns the four decoded floats (`pm1.0, pm2.5, pm4.0, pm10`, in order) when
every packet validates, `none` (the Python `{}` with the section marked
invalid) otherwise, together with the number of CRC errors counted: the loop
returns at the first failing packet, so exactly one error is counted for a
failed section. -/
def _mass_density_measurement (data : List Nat) : Option (List PyFloat) × Nat :=
  match decodeFieldsFrom data (List.range 4) with
  | some vs => (some vs, 0)
  | none => (none, 1)

/-- `SPS30._particle_count_measurement` (lines 732-778) on its 30-byte slice:
five fields (`pm0.5, pm1.0, pm2.5, pm4.0, pm10`), same early-return shape. -/
def _particle_count_measurement (data : List Nat) : Option (List PyFloat) × Nat :=
  match decodeFieldsFrom data (List.range 5) with
  | some vs => (some vs, 0)
  | none => (none, 1)

/-- `SPS30._particle_size_measurement` (lines 780-811) on its 6-byte slice:
a single field.  The Python code returns `0.0` with the section marked
invalid on a CRC mismatch; `none` models that invalid result. -/
def _particle_size_measurement (data : List Nat) : Option PyFloat × Nat :=
  if packetOk data 0 && packetOk data 3 then (some (floatAt data 0), 0)
  else (none, 1)

/-- Result of decoding one 60-byte measurement response: the three section
results (`some` iff the validity flag of the section ends up `True`) and the
per-attempt CRC error count (`_last_measurement_crc_errors`). -/
structure DecodeOutcome where
  mass : Option (List PyFloat)
  count : Option (List PyFloat)
  size : Option PyFloat
  errors : Nat
deriving DecidableEq, Repr

/-- Lines 856-860 of `get_measurement`: the three independent sub-decodes of
the 60-byte buffer — `raw[:24]`, `raw[24:54]`, `raw[54:]` — and the error
delta recorded for this attempt. -/
def decode_measured_values (raw : List Nat) : DecodeOutcome :=
  let m := _mass_density_measurement (raw.take 24)
  let c := _particle_count_measurement ((raw.drop 24).take 30)
  let s := _particle_size_measurement (raw.drop 54)
  ⟨m.1, c.1, s.1, m.2 + c.2 + s.2⟩

/-! ## Device session state and `get_measurement` (single-frame mode)
(`SPS30.get_measurement`, SPS30.py lines 813-956;
`SPS30.read_data_ready_flag`, lines 495-519). -/

/-- The driver state that `get_measurement` reads and writes:
`_is_measuring`, the three `_valid` section flags, and the two CRC error
counters. -/
structure SensorState where
  is_measuring : Bool
  valid_mass : Bool
  valid_count : Bool
  valid_size : Bool
  total_crc_errors : Nat
  last_measurement_crc_errors : Nat
deriving DecidableEq, Repr

/-- A bus transaction performed by the driver. -/
inductive BusOp where
  | write (cmd : List Nat)
  | read (n : Nat)
deriving DecidableEq, Repr

def CMD_READ_DATA_READY_FLAG : List Nat := [0x02, 0x02]

def CMD_READ_MEASURED_VALUES : List Nat := [0x03, 0x00]

/-- `SPS30.read_data_ready_flag` (lines 495-519) on the 3-byte response:
returns the flag value and the CRC-error delta.  A CRC mismatch counts one
error and returns `False` — the same value as a valid not-ready response
(`data[1] != 1`). -/
def read_data_ready_flag (resp : List Nat) : Bool × Nat :=
  if crc_calc (resp.take 2) == byteAt resp 2 then (byteAt resp 1 == 1, 0)
  else (false, 1)

/-- The decoded three sections of an accepted frame (the `frame` dict built
at lines 866-870). -/
structure MeasFrame where
  mass : List PyFloat
  count : List PyFloat
  size : PyFloat
deriving DecidableEq, Repr

/-- `SPS30.get_measurement` (lines 813-956) in single-frame mode
(`rolling_n = 1`, the default; the `rolling_n > 1` aggregation branch is
modelled separately by `get_measurement_rolling`).  The responses of the device to
the data-ready query and to the measured-values read are passed in as
`ready_resp` and `meas_resp`; the returned list records every bus operation
the call performed, in order.  Control flow mirrors the source: the
not-measuring guard returns `{}` before any bus access; otherwise the
validity flags are cleared, the data-ready flag is queried (a `False` flag —
not ready or CRC mismatch — returns `{}` without the 60-byte read), then the
60-byte response is decoded, the per-attempt error count is recorded, and the
frame is returned only if all three section flags are `True`. -/
def get_measurement1 (st : SensorState) (ready_resp meas_resp : List Nat) :
    Option MeasFrame × SensorState × List BusOp :=
  if !st.is_measuring then (none, st, [])
  else
    let st1 := { st with valid_mass := false, valid_count := false, valid_size := false }
    let ops := [BusOp.write CMD_READ_DATA_READY_FLAG, BusOp.read 3]
    let rd := read_data_ready_flag ready_resp
    let st2 := { st1 with total_crc_errors := st1.total_crc_errors + rd.2 }
    if !rd.1 then (none, st2, ops)
    else
      let ops := ops ++ [BusOp.write CMD_READ_MEASURED_VALUES, BusOp.read 60]
      let d := decode_measured_values meas_resp
      let st3 := { st2 with
        total_crc_errors := st2.total_crc_errors + d.errors,
        last_measurement_crc_errors := d.errors,
        valid_mass := d.mass.isSome,
        valid_count := d.count.isSome,
        valid_size := d.size.isSome }
      match d.mass, d.count, d.size with
      | some m, some c, some s => (some ⟨m, c, s⟩, st3, ops)
      | _, _, _ => (none, st3, ops)

/-! ## Rolling aggregator (`SPS30.get_measurement`, lines 834-846 and
872-921).  Frames here carry the numeric payload of an *accepted* frame; the
Python float values in the claim scenarios are small integers on which
float arithmetic is exact, so ℚ models them without rounding error. -/

/-- The `mass_density` dict of an accepted frame. -/
structure MassQ where
  pm1_0 : ℚ
  pm2_5 : ℚ
  pm4_0 : ℚ
  pm10 : ℚ
deriving DecidableEq, Repr

/-- The `particle_count` dict of an accepted frame. -/
structure CountQ where
  pm0_5 : ℚ
  pm1_0 : ℚ
  pm2_5 : ℚ
  pm4_0 : ℚ
  pm10 : ℚ
deriving DecidableEq, Repr

/-- An accepted frame (the `frame` dict at lines 866-870). -/
structure FrameQ where
  mass_density : MassQ
  particle_count : CountQ
  particle_size : ℚ
deriving DecidableEq, Repr

/-- The rolling-window fields of the driver: `_hist_frames` and
`_hist_maxlen`.  A never-created `_hist_frames` attribute is modelled as the
empty list (`getattr(self, "_hist_maxlen", None)` already collapses a missing
`_hist_maxlen` and an explicit `None` to the same value, and `_hist_frames`
is only ever consulted when `_hist_maxlen` matches the requested window, which
implies it was created). -/
structure AggState where
  hist_frames : List FrameQ
  hist_maxlen : Option Nat
deriving DecidableEq, Repr

/-- Lines 834-846: before the read, the window is re-created empty whenever
`rolling_n > 1` and the stored maxlen differs from `rolling_n`, and it is
dropped entirely (history cleared, maxlen `None`) when `rolling_n == 1`. -/
def resetWindow (st : AggState) (n : Nat) : AggState :=
  if 1 < n then
    (if st.hist_maxlen ≠ some n then ⟨[], some n⟩ else st)
  else ⟨[], none⟩

/-- Lines 893-915: the per-named-field arithmetic mean over the stored
frames, recomputed from scratch (`s = 0.0; for f in hist: s += ...; s / n`). -/
def meanFrame (hist : List FrameQ) : FrameQ :=
  let n : ℚ := hist.length
  { mass_density :=
      { pm1_0 := hist.foldl (fun s f => s + f.mass_density.pm1_0) 0 / n
        pm2_5 := hist.foldl (fun s f => s + f.mass_density.pm2_5) 0 / n
        pm4_0 := hist.foldl (fun s f => s + f.mass_density.pm4_0) 0 / n
        pm10 := hist.foldl (fun s f => s + f.mass_density.pm10) 0 / n }
    particle_count :=
      { pm0_5 := hist.foldl (fun s f => s + f.particle_count.pm0_5) 0 / n
        pm1_0 := hist.foldl (fun s f => s + f.particle_count.pm1_0) 0 / n
        pm2_5 := hist.foldl (fun s f => s + f.particle_count.pm2_5) 0 / n
        pm4_0 := hist.foldl (fun s f => s + f.particle_count.pm4_0) 0 / n
        pm10 := hist.foldl (fun s f => s + f.particle_count.pm10) 0 / n }
    particle_size := hist.foldl (fun s f => s + f.particle_size) 0 / n }

/-- The aggregation path of `get_measurement` for one call: `rolling_n` is
clamped to at least 1 (line 827), the window is reset if the size changed,
and then — when the read attempt produced an accepted frame — the frame is
appended, the oldest frame is popped once the count exceeds the window, and
the call returns nothing until the window holds exactly `rolling_n` frames,
at which point it returns their freshly computed mean (`rolling_n = 1`
returns the accepted frame unchanged). -/
def get_measurement_rolling (st : AggState) (rolling_n : Nat) (frame : Option FrameQ) :
    AggState × Option FrameQ :=
  let n := max rolling_n 1
  let st1 := resetWindow st n
  match frame with
  | none => (st1, none)
  | some f =>
    if n = 1 then (st1, some f)
    else
      let hist := st1.hist_frames ++ [f]
      let hist := if n < hist.length then hist.drop 1 else hist
      let st2 : AggState := ⟨hist, st1.hist_maxlen⟩
      if hist.length < n then (st2, none)
      else (st2, some (meanFrame hist))

/-! ## Auto-clean interval (`SPS30.write_auto_cleaning_interval_days`,
lines 563-588; `SPS30.read_auto_cleaning_interval`, lines 521-560). -/

def CMD_AUTO_CLEANING_INTERVAL : List Nat := [0x80, 0x04]

/-- Lines 567-577 of `write_auto_cleaning_interval_days`: encode an interval
in seconds as the 8-byte write command.  The low 16-bit half-word
(`seconds & 0xFFFF`, here `seconds % 2^16`) is sent first, the high half
(`seconds >> 16`, here `seconds / 2^16`) second, each half big-endian within
itself and followed by its own CRC over `cmd[2:4]` resp. `cmd[5:7]`. -/
def write_auto_cleaning_encode (seconds : Nat) : List Nat :=
  let lo : Nat := seconds % 2 ^ 16       -- seconds & 0xFFFF
  let hi : Nat := seconds / 2 ^ 16       -- seconds >> 16
  let cmd1 := CMD_AUTO_CLEANING_INTERVAL ++ [lo / 2 ^ 8 % 2 ^ 8, lo % 2 ^ 8]
  let cmd2 := cmd1 ++ [crc_calc ((cmd1.drop 2).take 2)]
  let cmd3 := cmd2 ++ [hi / 2 ^ 8 % 2 ^ 8, hi % 2 ^ 8]
  cmd3 ++ [crc_calc ((cmd3.drop 5).take 2)]

/-- `SPS30.write_auto_cleaning_interval_days` (lines 563-588): the argument
is given in days and converted to seconds (`seconds = days * 86400`) before
encoding; the resulting byte sequence is what the driver writes. -/
def write_auto_cleaning_interval_days (days : Nat) : List Nat :=
  write_auto_cleaning_encode (days * 86400)

/-- `SPS30.read_auto_cleaning_interval` (lines 521-560) on the 6-byte
response: `None` (with an error delta) on a length mismatch or on the first
packet-CRC failure; otherwise the first packet is the low 16-bit half, the
second the high half, and the result is `(hi << 16) | lo` seconds. -/
def read_auto_cleaning_interval (data : List Nat) : Option Nat × Nat :=
  if data.length ≠ 6 then (none, 0)
  else if crc_calc (data.take 2) ≠ byteAt data 2 then (none, 1)
  else if crc_calc ((data.drop 3).take 2) ≠ byteAt data 5 then (none, 1)
  else
    let lo : Nat := byteAt data 0 * 2 ^ 8 + byteAt data 1   -- (b0 << 8) | b1
    let hi : Nat := byteAt data 3 * 2 ^ 8 + byteAt data 4
    (some (hi * 2 ^ 16 + lo), 0)                            -- (hi << 16) | lo

/-- Modelled from the spec: the sensor itself is not part of the repository.
Per §3/§6 the auto-clean interval register simply stores the two checksummed
argument half-words of the write command and returns the same six argument
bytes (two data bytes plus CRC per packet, same packet order) as the
response to a subsequent read of the field. -/
def device_interval_response (cmd : List Nat) : List Nat := (cmd.drop 2).take 6

/-! ## Transport read (`SPS30._read_response`, lines 320-334;
`SPS30._bus_reset`, lines 257-271). -/

/-- Outcome of the underlying `i2c.readfrom` call: the bytes the bus layer
delivered, or an `OSError`. -/
inductive BusReadResult where
  | ok (data : List Nat)
  | err
deriving DecidableEq, Repr

/-- What a `_read_response` call did: `returned = some data` means the bytes
were handed to the caller as a success, `none` means an exception propagated;
`bus_reset` records whether the SCL-toggling `_bus_reset` ran. -/
structure ReadOutcome where
  returned : Option (List Nat)
  bus_reset : Bool
deriving DecidableEq, Repr

/-- `SPS30._read_response` (lines 320-334): on an `OSError` from the bus it
runs `_bus_reset` and re-raises; otherwise it returns whatever bytes the bus
delivered — a length mismatch is only reported on the debug console (line
332-333), the short buffer is still returned as a success. -/
def _read_response (length : Nat) (io_result : BusReadResult) : ReadOutcome :=
  match io_result with
  | BusReadResult.ok data => ⟨some data, false⟩
  | BusReadResult.err => ⟨none, true⟩

/-! ## Scenario inputs for the rolling-window claim -/

/-- An all-valid accepted frame whose every named field carries `q`. -/
def demoFrame (q : ℚ) : FrameQ := ⟨⟨q, q, q, q⟩, ⟨q, q, q, q, q⟩, q⟩

/-- First call with `rolling_n = 3` on a fresh driver. -/
def demoStep1 : AggState × Option FrameQ :=
  get_measurement_rolling ⟨[], none⟩ 3 (some (demoFrame 10))

/-- Second call with `rolling_n = 3`. -/
def demoStep2 : AggState × Option FrameQ :=
  get_measurement_rolling demoStep1.1 3 (some (demoFrame 20))

/-- Third call with `rolling_n = 3`. -/
def demoStep3 : AggState × Option FrameQ :=
  get_measurement_rolling demoStep2.1 3 (some (demoFrame 30))

/-- Fourth call, switching to `rolling_n = 1`. -/
def demoStep4 : AggState × Option FrameQ :=
  get_measurement_rolling demoStep3.1 1 (some (demoFrame 40))

/-! ## Theorems -/

/-- C3: `crc_calc` is a pure function of its two input bytes computing the
algorithm of the spec (accumulator `0xFF`; per byte: XOR in, then 8 shift/XOR-0x31
rounds masked to 8 bits), its result is an 8-bit value, and
`crc_calc [0xBE, 0xEF] = 0x92` exactly. -/
theorem crc_calc_matches_spec :
    (∀ b0 b1 : Nat, crc_calc [b0, b1] = checksum_spec b0 b1) ∧
    (∀ b0 b1 : Nat, crc_calc [b0, b1] < 256) ∧
    crc_calc [0xBE, 0xEF] = 0x92 := by
  refine ⟨fun b0 b1 => rfl, fun b0 b1 => ?_, by decide⟩
  show crcAbsorb (crcAbsorb 0xFF b0) b1 < 256
  unfold crcAbsorb
  rw [show (8 : Nat) = 7 + 1 from rfl, Function.iterate_succ_apply']
  unfold crcRound
  split
  · exact Nat.lt_succ_of_le (Nat.and_le_right)
  · exact Nat.lt_succ_of_le (Nat.and_le_right)

/-- C4: evaluation of `crc_calc` at malformed inputs (length ≠ 2).  The code
does not raise any error: it silently returns the sentinel `0xFF` in every
such case, contradicting the specified `ChecksumInputError`
(a defect the spec itself flags at §4.1/§9). -/
theorem crc_calc_silent_sentinel :
    crc_calc [] = 0xFF ∧ crc_calc [0xBE] = 0xFF ∧
    crc_calc [0xBE, 0xEF, 0x92] = 0xFF := by
  decide

/-- C7: the word-to-float decoder realises the IEEE-754 single-precision
layout on the specified vectors: `0x00000000 → +0.0`, `0x80000000 → -0.0`,
`0x3F800000 → 1.0`, `0x40490FDB → π` within single-precision epsilon
(`2⁻²³`), `0x7F800000 → +∞`, `0xFF800000 → -∞`, `0x7FC00000 → NaN` with
NaN-self-inequality under float `==`; the subnormal vector `0x00000001`
additionally exhibits the no-implicit-leading-1 subnormal branch. -/
theorem ieee754_decode_vectors :
    ieee754_number_conversion 0x00000000 = PyFloat.zero false ∧
    ieee754_number_conversion 0x80000000 = PyFloat.zero true ∧
    ieee754_number_conversion 0x3F800000 = PyFloat.finite 1 ∧
    (∃ q : ℚ, ieee754_number_conversion 0x40490FDB = PyFloat.finite q ∧
      |(q : ℝ) - Real.pi| < 1 / 2 ^ 23) ∧
    ieee754_number_conversion 0x7F800000 = PyFloat.inf false ∧
    ieee754_number_conversion 0xFF800000 = PyFloat.inf true ∧
    ieee754_number_conversion 0x7FC00000 = PyFloat.nan ∧
    pyEq (ieee754_number_conversion 0x7FC00000)
      (ieee754_number_conversion 0x7FC00000) = false ∧
    ieee754_number_conversion 0x00000001 = PyFloat.finite (1 / 2 ^ 149) := by
  refine ⟨by simp [ieee754_number_conversion],
          by simp [ieee754_number_conversion],
          by simp [ieee754_number_conversion],
          ⟨13176795 / 4194304, by simp [ieee754_number_conversion]; norm_num, ?_⟩,
          by simp [ieee754_number_conversion],
          by simp [ieee754_number_conversion],
          by simp [ieee754_number_conversion],
          by simp [ieee754_number_conversion, pyEq],
          by simp [ieee754_number_conversion]; norm_num⟩
  rw [abs_sub_lt_iff]
  constructor
  · nlinarith [Real.pi_gt_d20]
  · nlinarith [Real.pi_lt_d20]

/-- C9 (counterexample): the claim says a short read triggers a bus reset
and raises; but when the bus delivers 1 byte against a 3-byte request,
`_read_response` returns the short buffer to its caller as a success, with
no bus reset and no exception. -/
theorem read_response_short_counterexample :
    _read_response 3 (BusReadResult.ok [0xAB]) =
      ⟨some [0xAB], false⟩ ∧
    ([0xAB] : List Nat).length ≠ 3 := by
  decide

/-- C9 (amended): `_read_response` triggers the clock-toggling bus reset and
re-raises only on an I/O failure of the underlying read; whatever byte
buffer the bus delivers — short or not — is returned to the caller as a
success without any reset or exception (a length mismatch is only noted on
the debug console). -/
theorem read_response_behavior :
    (∀ n : Nat, _read_response n BusReadResult.err = ⟨none, true⟩) ∧
    (∀ (n : Nat) (data : List Nat),
      _read_response n (BusReadResult.ok data) = ⟨some data, false⟩) :=
  ⟨fun _ => rfl, fun _ _ => rfl⟩

/-- C8: when the session is not measuring, `get_measurement` returns the
empty result with the driver state untouched and an empty bus trace — no
write and no read is performed. -/
theorem not_measuring_guard (st : SensorState) (ready meas : List Nat)
    (h : st.is_measuring = false) :
    get_measurement1 st ready meas = (none, st, []) := by
  simp [get_measurement1, h]

/-- Witness for `not_measuring_guard` at a concrete idle state. -/
theorem not_measuring_guard_witness :
    get_measurement1 ⟨false, false, false, false, 0, 0⟩ [] [] =
      (none, ⟨false, false, false, false, 0, 0⟩, []) :=
  not_measuring_guard ⟨false, false, false, false, 0, 0⟩ [] [] rfl

/-- C10: in the Measuring state, a data-ready response that fails its own
checksum makes `read_data_ready_flag` count one cumulative CRC error and
return `False` — the same flag value as a checksum-valid not-ready response —
so `get_measurement` returns the empty result after only the data-ready
query and 3-byte read: the read-measured-values command is never issued. -/
theorem data_ready_crc_indistinguishable
    (st : SensorState) (ready meas resp2 : List Nat)
    (hm : st.is_measuring = true)
    (hbad : crc_calc (ready.take 2) ≠ byteAt ready 2)
    (hok : crc_calc (resp2.take 2) = byteAt resp2 2)
    (hnr : byteAt resp2 1 ≠ 1) :
    read_data_ready_flag ready = (false, 1) ∧
    read_data_ready_flag resp2 = (false, 0) ∧
    get_measurement1 st ready meas =
      (none,
       { st with valid_mass := false, valid_count := false, valid_size := false,
                 total_crc_errors := st.total_crc_errors + 1 },
       [BusOp.write CMD_READ_DATA_READY_FLAG, BusOp.read 3]) := by
  have h1 : read_data_ready_flag ready = (false, 1) := by
    simp [read_data_ready_flag, hbad]
  have h2 : read_data_ready_flag resp2 = (false, 0) := by
    simp [read_data_ready_flag, hok, hnr]
  refine ⟨h1, h2, ?_⟩
  simp [get_measurement1, hm, h1]

/-- Witness for `data_ready_crc_indistinguishable`: a corrupted ready
response `[0x00, 0x01, 0x00]` (true CRC is `0xB0`) against the valid
not-ready response `[0x00, 0x00, 0x81]`. -/
theorem data_ready_crc_indistinguishable_witness :
    read_data_ready_flag [0x00, 0x01, 0x00] = (false, 1) ∧
    read_data_ready_flag [0x00, 0x00, 0x81] = (false, 0) ∧
    get_measurement1 ⟨true, false, false, false, 5, 0⟩ [0x00, 0x01, 0x00] [] =
      (none, ⟨true, false, false, false, 6, 0⟩,
       [BusOp.write CMD_READ_DATA_READY_FLAG, BusOp.read 3]) :=
  data_ready_crc_indistinguishable ⟨true, false, false, false, 5, 0⟩
    [0x00, 0x01, 0x00] [] [0x00, 0x00, 0x81]
    rfl (by decide) (by decide) (by decide)

/-- C6: the auto-clean interval round-trips through the little-endian
half-word encoding for each of 0, 86400, 604800 and 4294967295 seconds
(the first three being the day-argument encodings for 0, 1 and 7 days):
reading back the stored argument bytes yields the identical value, the
first transmitted packet carries the least-significant 16-bit half and the
second the most-significant half. -/
theorem auto_clean_interval_round_trip :
    (∀ s ∈ [0, 86400, 604800, 4294967295],
      (read_auto_cleaning_interval
        (device_interval_response (write_auto_cleaning_encode s))).1 = some s ∧
      byteAt (write_auto_cleaning_encode s) 2 * 2 ^ 8 +
        byteAt (write_auto_cleaning_encode s) 3 = s % 2 ^ 16 ∧
      byteAt (write_auto_cleaning_encode s) 5 * 2 ^ 8 +
        byteAt (write_auto_cleaning_encode s) 6 = s / 2 ^ 16) ∧
    write_auto_cleaning_interval_days 0 = write_auto_cleaning_encode 0 ∧
    write_auto_cleaning_interval_days 1 = write_auto_cleaning_encode 86400 ∧
    write_auto_cleaning_interval_days 7 = write_auto_cleaning_encode 604800 := by
  decide

/-- A section decode succeeds iff every packet of every block validates. -/
lemma decodeFieldsFrom_isSome (data : List Nat) (blocks : List Nat) :
    (decodeFieldsFrom data blocks).isSome = true ↔
      ∀ b ∈ blocks, packetOk data (b * 6) = true ∧ packetOk data (b * 6 + 3) = true := by
  induction blocks with
  | nil => simp [decodeFieldsFrom]
  | cons b rest ih =>
    simp only [decodeFieldsFrom, List.forall_mem_cons]
    split
    case isTrue hpk =>
      rw [Bool.and_eq_true] at hpk
      have hmatch : (match decodeFieldsFrom data rest with
          | some vs => some (floatAt data (b * 6) :: vs)
          | none => (none : Option (List PyFloat))).isSome
          = (decodeFieldsFrom data rest).isSome := by
        cases decodeFieldsFrom data rest <;> rfl
      rw [hmatch, ih]
      simp [hpk.1, hpk.2]
    case isFalse hpk =>
      simp only [Option.isSome_none, Bool.false_eq_true, false_iff]
      intro hall
      exact hpk (Bool.and_eq_true _ _ |>.mpr hall.1)

/-- Bridge: validity of the mass-density section is success of its loop. -/
lemma mass_density_isSome (data : List Nat) :
    (_mass_density_measurement data).1.isSome
      = (decodeFieldsFrom data (List.range 4)).isSome := by
  unfold _mass_density_measurement
  cases decodeFieldsFrom data (List.range 4) <;> rfl

/-- Bridge: validity of the particle-count section is success of its loop. -/
lemma particle_count_isSome (data : List Nat) :
    (_particle_count_measurement data).1.isSome
      = (decodeFieldsFrom data (List.range 5)).isSome := by
  unfold _particle_count_measurement
  cases decodeFieldsFrom data (List.range 5) <;> rfl

/-- The mass-density section counts exactly one CRC error when it fails
(the loop returns at the first mismatch), none when it succeeds. -/
lemma mass_density_errors (data : List Nat) :
    (_mass_density_measurement data).2 =
      if (_mass_density_measurement data).1.isSome then 0 else 1 := by
  unfold _mass_density_measurement
  cases decodeFieldsFrom data (List.range 4) <;> simp

/-- Same single-error shape for the particle-count section. -/
lemma particle_count_errors (data : List Nat) :
    (_particle_count_measurement data).2 =
      if (_particle_count_measurement data).1.isSome then 0 else 1 := by
  unfold _particle_count_measurement
  cases decodeFieldsFrom data (List.range 5) <;> simp

/-- Same single-error shape for the particle-size section. -/
lemma particle_size_errors (data : List Nat) :
    (_particle_size_measurement data).2 =
      if (_particle_size_measurement data).1.isSome then 0 else 1 := by
  unfold _particle_size_measurement
  split <;> simp

/-- C2 (counterexample): on the all-zero 24-byte mass-density slice every
one of the eight packets fails its checksum (the CRC of `[0x00, 0x00]` is
`0x81`, the received byte is `0x00`), yet the decode counts exactly one
checksum error, not eight: the claim that the per-attempt count reflects
every failed packet in the section is false. -/
theorem section_error_count_counterexample :
    (_mass_density_measurement (List.replicate 24 0)).2 = 1 ∧
    ((List.range 8).countP fun i => !packetOk (List.replicate 24 0) (3 * i)) = 8 ∧
    (_mass_density_measurement (List.replicate 24 0)).2 ≠
      ((List.range 8).countP fun i => !packetOk (List.replicate 24 0) (3 * i)) := by
  refine ⟨by decide, by decide, by decide⟩

/-- C2 (amended): within one section, the decode aborts at the first
packet-checksum failure — no further field of that section is attempted —
so a failed section contributes exactly one to the per-attempt error count
(and zero when it succeeds, succeeding exactly when all its packets
validate); the three sections are attempted independently of each other, so
the per-attempt count is the sum of the three per-section contributions,
at most 3, not the number of failed packets. -/
theorem section_abort_first_failure (raw : List Nat) :
    (decode_measured_values raw).errors =
      (if (_mass_density_measurement (raw.take 24)).1.isSome then 0 else 1) +
      (if (_particle_count_measurement ((raw.drop 24).take 30)).1.isSome then 0 else 1) +
      (if (_particle_size_measurement (raw.drop 54)).1.isSome then 0 else 1) ∧
    ((_mass_density_measurement (raw.take 24)).1.isSome = true ↔
      ∀ b ∈ List.range 4, packetOk (raw.take 24) (b * 6) = true ∧
        packetOk (raw.take 24) (b * 6 + 3) = true) ∧
    ((_particle_count_measurement ((raw.drop 24).take 30)).1.isSome = true ↔
      ∀ b ∈ List.range 5, packetOk ((raw.drop 24).take 30) (b * 6) = true ∧
        packetOk ((raw.drop 24).take 30) (b * 6 + 3) = true) ∧
    ((_particle_size_measurement (raw.drop 54)).1.isSome = true ↔
      (packetOk (raw.drop 54) 0 = true ∧ packetOk (raw.drop 54) 3 = true)) ∧
    (decode_measured_values raw).errors ≤ 3 := by
  have hm := mass_density_errors (raw.take 24)
  have hc := particle_count_errors ((raw.drop 24).take 30)
  have hs := particle_size_errors (raw.drop 54)
  have herr : (decode_measured_values raw).errors =
      (_mass_density_measurement (raw.take 24)).2 +
      (_particle_count_measurement ((raw.drop 24).take 30)).2 +
      (_particle_size_measurement (raw.drop 54)).2 := rfl
  refine ⟨by rw [herr, hm, hc, hs], ?_, ?_, ?_, ?_⟩
  · rw [mass_density_isSome, decodeFieldsFrom_isSome]
  · rw [particle_count_isSome, decodeFieldsFrom_isSome]
  · unfold _particle_size_measurement
    split <;> simp_all
  · rw [herr, hm, hc, hs]
    split <;> split <;> split <;> omega

/-- C1: in the Measuring state, with the data-ready flag affirmed, a
60-byte measurement response yields a populated frame exactly when all
three section decodes are valid; when any section is invalid the call
returns the empty result, never a partial frame, and in either case the
per-attempt checksum-error count of the attempt is recorded in the driver
state, along with the three per-section validity flags. -/
theorem frame_acceptance_all_sections
    (st : SensorState) (ready meas : List Nat)
    (hm : st.is_measuring = true)
    (hr : (read_data_ready_flag ready).1 = true)
    (hlen : meas.length = 60) :
    ((get_measurement1 st ready meas).1.isSome = true ↔
      ((decode_measured_values meas).mass.isSome = true ∧
       (decode_measured_values meas).count.isSome = true ∧
       (decode_measured_values meas).size.isSome = true)) ∧
    (¬((decode_measured_values meas).mass.isSome = true ∧
       (decode_measured_values meas).count.isSome = true ∧
       (decode_measured_values meas).size.isSome = true) →
      (get_measurement1 st ready meas).1 = none) ∧
    (get_measurement1 st ready meas).2.1.last_measurement_crc_errors =
      (decode_measured_values meas).errors ∧
    (get_measurement1 st ready meas).2.1.valid_mass =
      (decode_measured_values meas).mass.isSome ∧
    (get_measurement1 st ready meas).2.1.valid_count =
      (decode_measured_values meas).count.isSome ∧
    (get_measurement1 st ready meas).2.1.valid_size =
      (decode_measured_values meas).size.isSome := by
  cases hmass : (decode_measured_values meas).mass with
  | none =>
    cases hcnt : (decode_measured_values meas).count <;>
      cases hsz : (decode_measured_values meas).size <;>
        simp [get_measurement1, hm, hr, hmass, hcnt, hsz]
  | some m =>
    cases hcnt : (decode_measured_values meas).count <;>
      cases hsz : (decode_measured_values meas).size <;>
        simp [get_measurement1, hm, hr, hmass, hcnt, hsz]

/-- Witness for `frame_acceptance_all_sections`: the measuring state, a
valid affirmative data-ready response `[0x00, 0x01, 0xB0]`, and the all-zero
60-byte response (all sections invalid: the error count 3 is recorded and
the result is empty). -/
theorem frame_acceptance_all_sections_witness :
    (get_measurement1 ⟨true, false, false, false, 0, 0⟩ [0x00, 0x01, 0xB0]
        (List.replicate 60 0)).2.1.last_measurement_crc_errors =
      (decode_measured_values (List.replicate 60 0)).errors :=
  (frame_acceptance_all_sections ⟨true, false, false, false, 0, 0⟩
    [0x00, 0x01, 0xB0] (List.replicate 60 0) rfl (by decide) (by decide)).2.2.1

/-- Summing a field with the code loop `s = 0.0; for f in hist: s += g f`
is the same as summing the mapped list. -/
lemma foldl_add_map (g : FrameQ → ℚ) (l : List FrameQ) :
    l.foldl (fun s f => s + g f) 0 = (l.map g).sum := by
  suffices h : ∀ a : ℚ, l.foldl (fun s f => s + g f) a = a + (l.map g).sum by
    simpa using h 0
  induction l with
  | nil => intro a; simp
  | cons x xs ih => intro a; simp [ih, add_assoc]

/-- C5: with a window of size `N > 1` in steady state, each accepted frame
is appended and the oldest is evicted once the count exceeds `N`; the call
yields nothing until exactly `N` frames are stored and then yields the
freshly-computed per-named-field arithmetic mean of the current window.  On
the concrete scenario: with `N = 3` and particle-size values 10, 20, 30 the
first two calls yield nothing and the third yields exactly 20; switching to
`N = 1` on the fourth call discards the buffered history and returns that
raw frame of that call, unblended. -/
theorem rolling_window_behavior
    (N : Nat) (st : AggState) (f : FrameQ)
    (hN : 1 < N) (hm : st.hist_maxlen = some N) (hl : st.hist_frames.length ≤ N) :
    ((get_measurement_rolling st N (some f)).1.hist_frames =
      (if st.hist_frames.length = N then st.hist_frames.drop 1
       else st.hist_frames) ++ [f]) ∧
    ((get_measurement_rolling st N (some f)).1.hist_frames.length ≤ N) ∧
    ((get_measurement_rolling st N (some f)).2 = none ↔
      (get_measurement_rolling st N (some f)).1.hist_frames.length < N) ∧
    ((get_measurement_rolling st N (some f)).1.hist_frames.length = N →
      (get_measurement_rolling st N (some f)).2 =
        some (meanFrame (get_measurement_rolling st N (some f)).1.hist_frames)) ∧
    (∀ h : List FrameQ,
      (meanFrame h).particle_size = (h.map FrameQ.particle_size).sum / h.length ∧
      (meanFrame h).mass_density.pm2_5 =
        (h.map fun fr => fr.mass_density.pm2_5).sum / h.length ∧
      (meanFrame h).particle_count.pm0_5 =
        (h.map fun fr => fr.particle_count.pm0_5).sum / h.length) ∧
    (demoStep1.2 = none ∧ demoStep2.2 = none ∧
     demoStep3.2 = some (demoFrame 20) ∧
     demoStep4.1.hist_frames = [] ∧ demoStep4.1.hist_maxlen = none ∧
     demoStep4.2 = some (demoFrame 40)) := by
  have hmax : max N 1 = N := by omega
  have hN1 : ¬ (N = 1) := by omega
  have hreset : resetWindow st N = st := by
    simp [resetWindow, hN, hm]
  have hmean : ∀ h : List FrameQ,
      (meanFrame h).particle_size = (h.map FrameQ.particle_size).sum / h.length ∧
      (meanFrame h).mass_density.pm2_5 =
        (h.map fun fr => fr.mass_density.pm2_5).sum / h.length ∧
      (meanFrame h).particle_count.pm0_5 =
        (h.map fun fr => fr.particle_count.pm0_5).sum / h.length := by
    intro h
    refine ⟨?_, ?_, ?_⟩ <;> simp [meanFrame, foldl_add_map]
  have hscen : demoStep1.2 = none ∧ demoStep2.2 = none ∧
      demoStep3.2 = some (demoFrame 20) ∧
      demoStep4.1.hist_frames = [] ∧ demoStep4.1.hist_maxlen = none ∧
      demoStep4.2 = some (demoFrame 40) := by
    have e1 : demoStep1 = (⟨[demoFrame 10], some 3⟩, none) := by
      simp [demoStep1, get_measurement_rolling, resetWindow]
    have e2 : demoStep2 = (⟨[demoFrame 10, demoFrame 20], some 3⟩, none) := by
      simp [demoStep2, e1, get_measurement_rolling, resetWindow]
    have e3 : demoStep3 = (⟨[demoFrame 10, demoFrame 20, demoFrame 30], some 3⟩,
        some (demoFrame 20)) := by
      simp [demoStep3, e2, get_measurement_rolling, resetWindow, meanFrame, demoFrame]
      norm_num
    have e4 : demoStep4 = (⟨[], none⟩, some (demoFrame 40)) := by
      simp [demoStep4, e3, get_measurement_rolling, resetWindow]
    exact ⟨by rw [e1], by rw [e2], by rw [e3], by rw [e4], by rw [e4], by rw [e4]⟩
  rcases Nat.lt_or_ge st.hist_frames.length N with hlt | hge
  · -- not yet full before the call: no eviction
    have hevict : ¬ N < (st.hist_frames ++ [f]).length := by
      simp only [List.length_append, List.length_cons, List.length_nil]
      omega
    have h1 : get_measurement_rolling st N (some f) =
        (⟨st.hist_frames ++ [f], st.hist_maxlen⟩,
         if (st.hist_frames ++ [f]).length < N then none
         else some (meanFrame (st.hist_frames ++ [f]))) := by
      simp only [get_measurement_rolling, hmax, hreset]
      rw [if_neg hN1, if_neg hevict]
      split <;> rfl
    have hne : st.hist_frames.length ≠ N := by omega
    refine ⟨?_, ?_, ?_, ?_, hmean, hscen⟩
    · rw [h1, if_neg hne]
    · rw [h1]
      simp only [List.length_append, List.length_cons, List.length_nil]
      omega
    · rw [h1]
      by_cases hfull : (st.hist_frames ++ [f]).length < N
      · simp [hfull]
      · simp [hfull]
    · intro h2
      rw [h1] at h2 ⊢
      simp only at h2
      rw [if_neg (by omega)]
  · -- window already holds N frames: the oldest is evicted
    have heq : st.hist_frames.length = N := by omega
    have hevict : N < (st.hist_frames ++ [f]).length := by
      simp only [List.length_append, List.length_cons, List.length_nil]
      omega
    have hdrop : (st.hist_frames ++ [f]).drop 1 = st.hist_frames.drop 1 ++ [f] :=
      List.drop_append_of_le_length (by omega)
    have hdlen : (st.hist_frames.drop 1 ++ [f]).length = N := by
      simp only [List.length_append, List.length_cons, List.length_nil,
        List.length_drop]
      omega
    have hnotlt : ¬ (st.hist_frames.drop 1 ++ [f]).length < N := by omega
    have h1 : get_measurement_rolling st N (some f) =
        (⟨st.hist_frames.drop 1 ++ [f], st.hist_maxlen⟩,
         some (meanFrame (st.hist_frames.drop 1 ++ [f]))) := by
      simp only [get_measurement_rolling, hmax, hreset]
      rw [if_neg hN1, if_pos hevict, hdrop, if_neg hnotlt]
    refine ⟨?_, ?_, ?_, ?_, hmean, hscen⟩
    · rw [h1, if_pos heq]
    · rw [h1]
      exact le_of_eq hdlen
    · rw [h1]
      simp only [hdlen]
      simp
    · intro _
      rw [h1]

/-- Witness for `rolling_window_behavior`: the steady state holding one
frame of a 3-frame window. -/
theorem rolling_window_behavior_witness :
    (get_measurement_rolling ⟨[demoFrame 10], some 3⟩ 3 (some (demoFrame 20))).2 = none ↔
      (get_measurement_rolling ⟨[demoFrame 10], some 3⟩ 3
          (some (demoFrame 20))).1.hist_frames.length < 3 :=
  (rolling_window_behavior 3 ⟨[demoFrame 10], some 3⟩ (demoFrame 20)
    (by decide) rfl (by decide)).2.2.1

end SPS30
